import Mathlib

/-!
Verification of the `techWelcome` post routes (`src/routes/api/post.js`)
against their natural-language specification.

The JavaScript handlers are shallowly embedded as pure Lean functions.
Modelling conventions:
- MongoDB documents are Lean structures; identifiers are `String`s.
- `Post.findById` / `User.findById` results are passed in as `Option` values
  (`none` models a well-formed id that matches no document, i.e. a `null`
  result).
- A JavaScript property access on a possibly-`null` value is `jsGet`, which
  faults (`TypeError`, a fault whose `kind` field is absent) on `null`.
- A caught fault is a `Fault` structure carrying the `kind` field that the
  catch blocks inspect (`'ObjectId'` for a malformed-identifier cast error).
- A handler outcome records the HTTP status sent (`none` when the handler
  falls through without sending any response) and the document passed to
  `save()` (`none` when no save was executed).
-/

/-- One entry of a post's `likes` array: `{ user: <id> }`. -/
structure Like where
  user : String
deriving DecidableEq

/-- One entry of a post's `comments` array (fields built in `post.js`
plus the subdocument id generated by the schema). -/
structure Comment where
  id : String
  user : String
  name : String
  avatar : String
  text : String
deriving DecidableEq

/-- A Post document (fields referenced by `src/routes/api/post.js`). -/
structure Post where
  id : String
  text : String
  name : String
  avatar : String
  user : String
  date : Nat
  likes : List Like
  comments : List Comment
deriving DecidableEq

/-- A user document as used by the handlers (`user.id`, `user.name`,
`user.avatar`). -/
structure UserDoc where
  id : String
  name : String
  avatar : String
deriving DecidableEq

/-- A caught JavaScript fault. `kind = some "ObjectId"` models a
malformed-identifier cast error from the document store; `kind = none`
models faults without a `kind` field (e.g. a `TypeError` from a `null`
dereference). -/
structure Fault where
  kind : Option String
deriving DecidableEq

/-- Result of a handler run: the HTTP status sent (`none` when no response
was sent at all) and the post passed to `save()` (`none` when nothing was
persisted). -/
structure HttpOutcome where
  status : Option Nat
  saved : Option Post
deriving DecidableEq

/-- JavaScript truthiness of a string: every string except `""` is truthy. -/
def truthy (s : String) : Bool := s ≠ ""

/-- A JavaScript property access `x.f` where `x` may be `null`: faults with
a `TypeError` (a fault with no `kind`) when `x` is `null`. -/
def jsGet {α β : Type} (x? : Option α) (f : α → β) : Except Fault β :=
  match x? with
  | none => Except.error { kind := none }
  | some x => Except.ok (f x)

/-- `Array.prototype.indexOf`: the index of the first occurrence of `a` in
`l`, or `-1` when absent. -/
def jsIndexOf {α : Type} [DecidableEq α] (l : List α) (a : α) : Int :=
  match l with
  | [] => -1
  | x :: xs =>
    if x = a then 0
    else
      let r := jsIndexOf xs a
      if r < 0 then -1 else r + 1

/-- `Array.prototype.splice(i, 1)`: remove one element at index `i`, where
a negative `i` counts from the end (clamped at `0`) and an out-of-range
index removes nothing. -/
def jsSplice1 {α : Type} (l : List α) (i : Int) : List α :=
  let start : Nat := if i < 0 then ((l.length : Int) + i).toNat else i.toNat
  l.take start ++ l.drop (start + 1)

/-- Core of the like handler `PUT /like/:postID` (`post.js` lines 109-128),
after the post has been fetched: if some existing like's `user` equals the
acting id, respond 400 without saving; otherwise `unshift` `{user: u}` onto
`likes`, save, respond 200. -/
def likeCore (u : String) (post : Post) : HttpOutcome :=
  if (post.likes.filter (fun like => like.user == u)).length > 0 then
    { status := some 400, saved := none }
  else
    let post' := { post with likes := { user := u } :: post.likes }
    { status := some 200, saved := some post' }

/-- Core of the unlike handler `PUT /unlike/:postID` (`post.js` lines
133-154), after the post has been fetched. The guard requires an existing
like by the acting user. The removal step mirrors the source exactly:
`find(likedId => req.user.id)` — a predicate that ignores its argument and
returns the acting id, so it is truthy exactly when the acting id is a
non-empty string — then `indexOf` of the found element, then
`splice(index, 1)`. -/
def unlikeCore (u : String) (post : Post) : HttpOutcome :=
  if (post.likes.filter (fun like => like.user == u)).length == 0 then
    { status := some 400, saved := none }
  else
    let userLike := post.likes.find? (fun _ => truthy u)
    let likeIndex : Int :=
      match userLike with
      | some l => jsIndexOf post.likes l
      | none => -1
    let post' := { post with likes := jsSplice1 post.likes likeIndex }
    { status := some 200, saved := some post' }

/-- The stored post after a like call: the document passed to `save()`, or
the unchanged original when the handler saved nothing. -/
def stateAfterLike (u : String) (post : Post) : Post :=
  match (likeCore u post).saved with
  | some p => p
  | none => post

/-- The stored post after an unlike call: the document passed to `save()`,
or the unchanged original when the handler saved nothing. -/
def stateAfterUnlike (u : String) (post : Post) : Post :=
  match (unlikeCore u post).saved with
  | some p => p
  | none => post

/-- A concrete post used in counterexamples and witnesses: liked by user
`"a"` first (newest-first order: `"a"` is at index 0), then user `"b"`. -/
def post0 : Post :=
  { id := "p1", text := "hello", name := "n", avatar := "av", user := "owner",
    date := 0, likes := [{ user := "a" }, { user := "b" }], comments := [] }

/-- Try-body of the delete-post handler `DELETE /myposts/:postID`
(`post.js` lines 81-104), mirroring the textual order of the source: the
ownership comparison `post.user.toString() !== req.user.id` is evaluated
first (a `null` post faults there), the existence check `if (!post)` comes
only after it. The returned flag records whether `post.remove()` ran. -/
def deletePostTry (u : String) (post? : Option Post) : Except Fault (Nat × Bool) := do
  let owner ← jsGet post? Post.user
  if owner ≠ u then return (401, false)
  else if post?.isNone then return (404, false)
  else return (200, true)

/-- Core of the delete-comment handler
`DELETE /delete_comment/:postID/:comment_id` (`post.js` lines 196-239)
after the post has been fetched. `userFound` is whether
`User.findById(req.user.id)` found a document; when it did, that document's
`id` is the queried acting id, which is what `user.id` evaluates to in the
ownership test (on `null` it faults instead). The comment is located by
`find(comment => comment.id === commentId)`; absence yields 404 before the
acting user document is touched; then the acting id must equal the post's
owner or the comment's author, else 401; otherwise the comment's index is
recomputed by `.map(comment => comment).indexOf(userComment)` and removed
with `splice(index, 1)`. -/
def deleteCommentCore (u : String) (post : Post) (commentId : String)
    (userFound : Bool) : Except Fault HttpOutcome :=
  let userComment := post.comments.find? (fun c => c.id == commentId)
  match userComment with
  | none => Except.ok { status := some 404, saved := none }
  | some c =>
    if !userFound then Except.error { kind := none }
    else
      let ownerOfPost := post.user
      let ownerOfComment := c.user
      if ownerOfPost ≠ u ∧ ownerOfComment ≠ u then
        Except.ok { status := some 401, saved := none }
      else
        let commentIndex := jsIndexOf (post.comments.map (fun c => c)) c
        let post' := { post with comments := jsSplice1 post.comments commentIndex }
        Except.ok { status := some 200, saved := some post' }

/-- Modelled from the spec: the Post schema (`models/Post.js`, not under
`src/`) defaults the fields the create-post handler leaves unset — `likes`
and `comments` start empty and `date` defaults to the creation time. -/
def newPostDefaults (newId : String) (now : Nat) (text name avatar userId : String) : Post :=
  { id := newId, text := text, name := name, avatar := avatar, user := userId,
    date := now, likes := [], comments := [] }

/-- The create-post handler `POST /` (`post.js` lines 14-43): the
validation gate rejects an empty `text` with 400; otherwise the acting
user's profile is fetched (`user?`; reading `user.name` on `null` faults),
a new Post is built from `text`, the snapshotted `name`/`avatar` and the
acting id, saved and returned with 200. `newId`/`now` stand for the
identifier and timestamp the store assigns at creation. -/
def createPost (u text newId : String) (now : Nat) (user? : Option UserDoc) :
    Except Fault (Nat × Option Post) :=
  if text = "" then Except.ok (400, none)
  else
    match jsGet user? (fun x => x) with
    | Except.error e => Except.error e
    | Except.ok user =>
      Except.ok (200, some (newPostDefaults newId now text user.name user.avatar u))

/-- Try-body of the add-comment handler `POST /comment/:postID` (`post.js`
lines 170-185): the new comment object is built first (reading `user.name`
and `user.avatar`, which faults on a `null` user), then
`post.comments.unshift(newComment)` dereferences the fetched post (which
faults on a `null` post), then the post is saved and 200 returned. `newCid`
stands for the subdocument id the schema assigns. -/
def addCommentTry (u text newCid : String) (post? : Option Post)
    (user? : Option UserDoc) : Except Fault (Nat × Option Post) := do
  let user ← jsGet user? (fun x => x)
  let newComment : Comment :=
    { id := newCid, user := u, name := user.name, text := text, avatar := user.avatar }
  let post ← jsGet post? (fun x => x)
  let post' := { post with comments := newComment :: post.comments }
  return (200, some post')

/-- The full add-comment handler `POST /comment/:postID` (`post.js` lines
160-190): the validation gate rejects empty `text` with 400 before the try
block; the catch block turns every caught fault into a plain 500 with
nothing persisted. -/
def addComment (u text newCid : String) (post? : Option Post)
    (user? : Option UserDoc) : Nat × Option Post :=
  if text = "" then (400, none)
  else
    match addCommentTry u text newCid post? user? with
    | Except.ok r => r
    | Except.error _ => (500, none)

/-- Modelled from the spec: the Post Repository's find-by-filter-sorted
operation. `Post.find({}).sort({ date: -1 })` in the list-all handler
delegates the ordering to the external document store; per the spec it
returns all stored Posts ordered by `date` descending, modelled here as an
insertion sort of the whole store by the relation `date`-of-right ≤
`date`-of-left. -/
def findAllSortedByDateDesc (store : List Post) : List Post :=
  List.insertionSort (fun a b => b.date ≤ a.date) store

/-- The list-all handler `GET /` (`post.js` lines 48-56): returns every
stored post sorted by `date` descending with status 200 — no pagination
and no filtering. -/
def getAllPosts (store : List Post) : Nat × List Post :=
  (200, findAllSortedByDateDesc store)

/-- The eight request handlers of `post.js`. -/
inductive Handler where
  | createPost
  | listAll
  | mypostsGet
  | deletePost
  | likePost
  | unlikePost
  | addComment
  | deleteComment
deriving DecidableEq

/-- The catch block of each handler, as a map from the caught fault to the
HTTP status sent (`none` when the handler sends no response). Create-post
(lines 38-41), list-all (52-55), like (124-127), unlike (150-153) and
add-comment (186-189) send an unconditional 500. Get-myposts (69-74) and
delete-post (98-103) send 404 when `err.kind === 'ObjectId'` and otherwise
fall through without any response (their `if` has no `else`). The
delete-comment catch (230-238) sends 404 when `err.kind === 'ObjectId'`;
for any other fault, evaluating the second disjunct
`err.value === postID` throws a `ReferenceError` (`postID` is an unbound
identifier), so neither the 404 nor the 500 branch runs and no response is
sent. -/
def catchOf : Handler → Fault → Option Nat
  | Handler.createPost, _ => some 500
  | Handler.listAll, _ => some 500
  | Handler.mypostsGet, e => if e.kind = some "ObjectId" then some 404 else none
  | Handler.deletePost, e => if e.kind = some "ObjectId" then some 404 else none
  | Handler.likePost, _ => some 500
  | Handler.unlikePost, _ => some 500
  | Handler.addComment, _ => some 500
  | Handler.deleteComment, e => if e.kind = some "ObjectId" then some 404 else none

/-- The user ids of a likes array, in order. -/
def likesUsers (l : List Like) : List String := l.map Like.user

/-- A concrete comment used in witnesses, authored by user `"ca"`. -/
def comment0 : Comment :=
  { id := "c1", user := "ca", name := "cn", avatar := "cav", text := "yo" }

/-- `post0` with one comment attached, used in witnesses. -/
def post1 : Post := { post0 with comments := [comment0] }

instance : IsTotal Post (fun a b => b.date ≤ a.date) :=
  ⟨fun a b => Nat.le_total b.date a.date⟩

instance : IsTrans Post (fun a b => b.date ≤ a.date) :=
  ⟨fun _ _ _ hab hbc => Nat.le_trans hbc hab⟩

/-- Removing the element at position `s` of a list (take `s`, skip one,
keep the rest) yields a sublist. -/
theorem take_append_drop_succ_sublist {α : Type} (l : List α) (s : Nat) :
    (l.take s ++ l.drop (s + 1)).Sublist l := by
  induction l generalizing s with
  | nil => simp
  | cons x xs ih =>
    cases s with
    | zero => simp
    | succ s' => simpa using (ih s').cons₂ x

/-- `splice(i, 1)` always yields a sublist of the original array. -/
theorem jsSplice1_sublist {α : Type} (l : List α) (i : Int) :
    (jsSplice1 l i).Sublist l :=
  take_append_drop_succ_sublist l _

/-- Whatever the unlike handler does, the stored likes array afterwards is
a sublist of the original one. -/
theorem stateAfterUnlike_likes_sublist (u : String) (post : Post) :
    ((stateAfterUnlike u post).likes).Sublist post.likes := by
  unfold stateAfterUnlike unlikeCore
  by_cases hg : ((post.likes.filter (fun like => like.user == u)).length == 0) = true
  · rw [if_pos hg]
  · rw [if_neg hg]
    exact jsSplice1_sublist _ _

/-- C1 (failing input): in `post0` user `"a"` liked first and user `"b"`
second, so `"a"`'s like sits at index 0. When `"b"` unlikes, the handler's
`find(likedId => req.user.id)` returns the first array element, so the like
removed is `"a"`'s, not `"b"`'s: the saved likes array is `[{user: "b"}]`,
i.e. another user's like disappeared while the acting user's like remains —
contradicting the claim that exactly the acting user's like is removed and
all likes by other users stay. -/
theorem unlike_removes_first_like_not_acting_users :
    unlikeCore "b" post0 =
      { status := some 200,
        saved := some { post0 with likes := [{ user := "b" }] } } := by
  decide

/-- C2: in the delete-post handler, a well-formed post id that matches no
post (`post? = none`) makes the ownership access `post.user.toString()`
fault with a `TypeError` (a fault with no `kind`), so the try-body ends in
a fault and the not-found branch is never reached. -/
theorem deletePost_missing_post_faults_before_404 (u : String) :
    deletePostTry u none = Except.error { kind := none } := rfl

/-- C3 (counterexample): a fault without the `ObjectId` kind caught in the
get-myposts handler produces no response at all, refuting the claim that
every caught fault yields a 404 or a 500. -/
theorem catch_not_always_404_or_500 :
    catchOf Handler.mypostsGet { kind := none } = none ∧
      ¬ (∀ (h : Handler) (f : Fault),
          catchOf h f = some 404 ∨ catchOf h f = some 500) := by
  constructor
  · rfl
  · intro hall
    rcases hall Handler.mypostsGet { kind := none } with h | h <;>
      simp [catchOf] at h

/-- C3 (amended): every caught fault yields a 404 or a 500, except that in
the get-myposts, delete-post and delete-comment handlers a fault other than
a malformed-identifier (`ObjectId`) fault yields no response at all. -/
theorem catch_translation_amended (h : Handler) (f : Fault) :
    catchOf h f = some 404 ∨ catchOf h f = some 500 ∨
      (catchOf h f = none ∧ f.kind ≠ some "ObjectId" ∧
        (h = Handler.mypostsGet ∨ h = Handler.deletePost ∨
          h = Handler.deleteComment)) := by
  cases h <;> by_cases hk : f.kind = some "ObjectId" <;> simp [catchOf, hk]

/-- C4: a user with a non-empty id who has not yet liked a post and then
likes and immediately unlikes it returns the stored likes array to exactly
its pre-like state. -/
theorem like_unlike_roundtrip (u : String) (post : Post) (hu : u ≠ "")
    (h : ∀ l ∈ post.likes, l.user ≠ u) :
    (stateAfterUnlike u (stateAfterLike u post)).likes = post.likes := by
  have hfilter : post.likes.filter (fun like => like.user == u) = [] :=
    List.filter_eq_nil_iff.mpr (fun a ha => by simp [h a ha])
  have h1 : stateAfterLike u post =
      { post with likes := { user := u } :: post.likes } := by
    simp [stateAfterLike, likeCore, hfilter]
  rw [h1]
  have htr : truthy u = true := by simp [truthy, hu]
  simp [stateAfterUnlike, unlikeCore, hfilter, htr, jsIndexOf, jsSplice1]

/-- C4 witness: user `"c"` (who has not liked `post0`) likes then unlikes
it, and the stored likes return to their original value. -/
theorem like_unlike_roundtrip_witness :
    (stateAfterUnlike "c" (stateAfterLike "c" post0)).likes = post0.likes :=
  like_unlike_roundtrip "c" post0 (by decide) (by decide)

/-- C5: if a post's likes contain at most one entry per user id, then after
a like call and after an unlike call (each a single sequential operation)
the stored likes still contain at most one entry per user id. -/
theorem like_unlike_preserve_unique (u : String) (post : Post)
    (h : (likesUsers post.likes).Nodup) :
    (likesUsers (stateAfterLike u post).likes).Nodup ∧
      (likesUsers (stateAfterUnlike u post).likes).Nodup := by
  refine ⟨?_, ?_⟩
  · unfold stateAfterLike likeCore
    by_cases hg : (post.likes.filter (fun like => like.user == u)).length > 0
    · rw [if_pos hg]
      exact h
    · rw [if_neg hg]
      have hnil : post.likes.filter (fun like => like.user == u) = [] := by
        have hz : (post.likes.filter (fun like => like.user == u)).length = 0 := by
          omega
        exact List.length_eq_zero.mp hz
      have hnotin : u ∉ likesUsers post.likes := by
        intro hmem
        rcases List.mem_map.mp hmem with ⟨l, hl, hlu⟩
        have hnl := List.filter_eq_nil_iff.mp hnil l hl
        simp [hlu] at hnl
      exact List.nodup_cons.mpr ⟨hnotin, h⟩
  · exact List.Nodup.sublist
      (List.Sublist.map Like.user (stateAfterUnlike_likes_sublist u post)) h

/-- C5 witness: `post0`'s likes (`"a"`, `"b"`) are duplicate-free and stay
so after user `"c"` likes and after user `"c"` unlikes. -/
theorem like_unlike_preserve_unique_witness :
    (likesUsers (stateAfterLike "c" post0).likes).Nodup ∧
      (likesUsers (stateAfterUnlike "c" post0).likes).Nodup :=
  like_unlike_preserve_unique "c" post0 (by decide)

/-- C6: after a user who had not liked a post likes it, a second like call
by the same user returns 400, saves nothing, and the stored likes length is
unchanged by the second call. -/
theorem second_like_400_unchanged (u : String) (post : Post)
    (h : ∀ l ∈ post.likes, l.user ≠ u) :
    likeCore u (stateAfterLike u post) = { status := some 400, saved := none } ∧
      (stateAfterLike u (stateAfterLike u post)).likes.length =
        (stateAfterLike u post).likes.length := by
  have hfilter : post.likes.filter (fun like => like.user == u) = [] :=
    List.filter_eq_nil_iff.mpr (fun a ha => by simp [h a ha])
  have h1 : stateAfterLike u post =
      { post with likes := { user := u } :: post.likes } := by
    simp [stateAfterLike, likeCore, hfilter]
  have h2 : likeCore u (stateAfterLike u post) =
      { status := some 400, saved := none } := by
    rw [h1]
    simp [likeCore, hfilter]
  refine ⟨h2, ?_⟩
  generalize hp1 : stateAfterLike u post = p1 at h2 ⊢
  simp [stateAfterLike, h2]

/-- C6 witness: user `"c"` likes `post0` then likes it again; the second
call returns 400 and the stored likes length is unchanged. -/
theorem second_like_400_unchanged_witness :
    likeCore "c" (stateAfterLike "c" post0) = { status := some 400, saved := none } ∧
      (stateAfterLike "c" (stateAfterLike "c" post0)).likes.length =
        (stateAfterLike "c" post0).likes.length :=
  second_like_400_unchanged "c" post0 (by decide)

/-- C7: when the comment located by id exists and the acting user (whose
user document was found) is neither the post's owner nor the comment's
author, delete-comment responds 401 and saves nothing, leaving the stored
comments unchanged. -/
theorem delete_comment_unauthorized_401 (u cid : String) (post : Post) (c : Comment)
    (hfind : post.comments.find? (fun cm => cm.id == cid) = some c)
    (hpo : post.user ≠ u) (hco : c.user ≠ u) :
    deleteCommentCore u post cid true =
      Except.ok { status := some 401, saved := none } := by
  unfold deleteCommentCore
  rw [hfind]
  simp [hpo, hco]

/-- C7 witness: user `"z"` is neither `post1`'s owner (`"owner"`) nor the
author of its comment (`"ca"`); delete-comment returns 401 and saves
nothing. -/
theorem delete_comment_unauthorized_401_witness :
    deleteCommentCore "z" post1 "c1" true =
      Except.ok { status := some 401, saved := none } :=
  delete_comment_unauthorized_401 "z" "c1" post1 comment0 (by decide)
    (by decide) (by decide)

/-- C8: for a non-empty text and an acting user whose profile lookup
succeeds, create-post returns 200 with a saved Post whose `user` is the
acting id, `name`/`avatar` are the profile's values, `text` is the supplied
text, and whose `likes` and `comments` are empty. -/
theorem create_post_fields (u text newId : String) (now : Nat) (user : UserDoc)
    (ht : text ≠ "") :
    ∃ p : Post, createPost u text newId now (some user) = Except.ok (200, some p) ∧
      p.user = u ∧ p.name = user.name ∧ p.avatar = user.avatar ∧ p.text = text ∧
      p.likes = [] ∧ p.comments = [] := by
  refine ⟨newPostDefaults newId now text user.name user.avatar u, ?_,
    rfl, rfl, rfl, rfl, rfl, rfl⟩
  simp [createPost, jsGet, ht]

/-- C8 witness: user `"u1"` (profile name `"nn"`, avatar `"aa"`) creates a
post with text `"hello"`; the returned Post carries exactly those values
and empty likes/comments. -/
theorem create_post_fields_witness :
    ∃ p : Post, createPost "u1" "hello" "p9" 5
        (some { id := "u1", name := "nn", avatar := "aa" }) =
        Except.ok (200, some p) ∧
      p.user = "u1" ∧ p.name = "nn" ∧ p.avatar = "aa" ∧ p.text = "hello" ∧
      p.likes = [] ∧ p.comments = [] :=
  create_post_fields "u1" "hello" "p9" 5
    { id := "u1", name := "nn", avatar := "aa" } (by decide)

/-- C9: list-all returns a permutation of the whole store (every stored
post, nothing else) ordered non-increasingly in `date`, with no pagination
or filtering. -/
theorem list_all_posts_sorted_perm (store : List Post) :
    (getAllPosts store).2.Perm store ∧
      (getAllPosts store).2.Pairwise (fun a b => b.date ≤ a.date) := by
  constructor
  · exact List.perm_insertionSort _ store
  · exact List.sorted_insertionSort (fun a b => b.date ≤ a.date) store

/-- C10: with a valid (non-empty) text and an existing acting user, the
add-comment handler run against a well-formed post id matching no post
(`post? = none`) faults on the absent post, the catch turns the fault into
a plain 500 (not a 404), and nothing is persisted. -/
theorem add_comment_missing_post_500 (u text newCid : String) (user : UserDoc)
    (ht : text ≠ "") :
    addComment u text newCid none (some user) = (500, none) := by
  unfold addComment
  rw [if_neg ht]
  rfl

/-- C10 witness: user `"u1"` comments `"hi"` on a missing post; the handler
returns 500 and persists nothing. -/
theorem add_comment_missing_post_500_witness :
    addComment "u1" "hi" "c9" none
      (some { id := "u1", name := "nn", avatar := "aa" }) = (500, none) :=
  add_comment_missing_post_500 "u1" "hi" "c9"
    { id := "u1", name := "nn", avatar := "aa" } (by decide)
